import Mathlib

/-!
Verification of the browser-side question handler (src/static/js/app.js).

The repository is a single JavaScript function `askQuestion` that reads a
text input, validates it, POSTs it as JSON to `/ask`, and renders either
the server reply or a fixed error message, toggling a loading indicator.

The shallow embedding below models:
  * the three DOM collaborators as a record `DOMState`
    (input value, output `innerText`, loader `classList`, console sink);
  * JavaScript `String.prototype.trim` (`jsTrim`);
  * `JSON.stringify` on the produced request object (`jsonStringify`);
  * `Response.json()` as an executable JSON parser (`jsonParse`);
  * the promise chain of `fetch(...).then(...).then(...).catch(...)` as a
    synchronous prefix (`askQuestionSync`, everything up to the suspension
    point at `fetch`) plus two continuations (`onFulfilled`, `onRejected`),
    composed over a network oracle `net : Request → FetchResult` into the
    whole-run function `askQuestion`.
-/

/-- Characters removed by JavaScript `String.prototype.trim`
(ECMAScript WhiteSpace and LineTerminator code points). -/
def jsWhitespace (c : Char) : Bool :=
  c = ' ' || c = '\t' || c = '\n' || c = '\u000B' || c = '\u000C' || c = '\r'
  || c = '\u00A0' || c = '\u1680'
  || (decide (0x2000 ≤ c.toNat) && decide (c.toNat ≤ 0x200A))
  || c = '\u2028' || c = '\u2029' || c = '\u202F' || c = '\u205F'
  || c = '\u3000' || c = '\uFEFF'

/-- JavaScript `s.trim()`: drop leading and trailing whitespace. -/
def jsTrim (s : String) : String :=
  String.mk (((s.toList.dropWhile jsWhitespace).reverse.dropWhile jsWhitespace).reverse)

/-- JavaScript values produced by `JSON.parse` / consumed by `JSON.stringify`.
Numbers keep their source lexeme: no claim depends on float semantics and the
spec types the only field ever read as a string. -/
inductive Json where
  | null : Json
  | bool : Bool → Json
  | num : String → Json
  | str : String → Json
  | arr : List Json → Json
  | obj : List (String × Json) → Json
deriving Repr

/-- Hexadecimal digit character for code-unit escapes (lowercase). -/
def hexDigitChar (n : Nat) : Char :=
  if n < 10 then Char.ofNat (Char.toNat '0' + n) else Char.ofNat (Char.toNat 'a' + n - 10)

/-- String-character escaping performed by `JSON.stringify`. -/
def jsonEscapeChar (c : Char) : String :=
  if c = '"' then "\\\""
  else if c = '\\' then "\\\\"
  else if c = '\u0008' then "\\b"
  else if c = '\t' then "\\t"
  else if c = '\n' then "\\n"
  else if c = '\u000C' then "\\f"
  else if c = '\r' then "\\r"
  else if c.toNat < 0x20 then
    String.mk ['\\', 'u', '0', '0', hexDigitChar (c.toNat / 16), hexDigitChar (c.toNat % 16)]
  else String.singleton c

/-- A JSON string literal as produced by `JSON.stringify`. -/
def jsonQuote (s : String) : String :=
  "\"" ++ String.join (s.toList.map jsonEscapeChar) ++ "\""

mutual

/-- Embedding of `JSON.stringify` (no indentation argument, so no added
whitespace; object members in insertion order). -/
def jsonStringify : Json → String
  | Json.null => "null"
  | Json.bool true => "true"
  | Json.bool false => "false"
  | Json.num lexeme => lexeme
  | Json.str s => jsonQuote s
  | Json.arr xs => "[" ++ jsonStringifyItems xs ++ "]"
  | Json.obj fields => "\x7b" ++ jsonStringifyMembers fields ++ "\x7d"

/-- Comma-separated serialisation of array elements. -/
def jsonStringifyItems : List Json → String
  | [] => ""
  | [x] => jsonStringify x
  | x :: xs => jsonStringify x ++ "," ++ jsonStringifyItems xs

/-- Comma-separated serialisation of object members. -/
def jsonStringifyMembers : List (String × Json) → String
  | [] => ""
  | [(k, v)] => jsonQuote k ++ ":" ++ jsonStringify v
  | (k, v) :: rest => jsonQuote k ++ ":" ++ jsonStringify v ++ "," ++ jsonStringifyMembers rest

end

/-- Whitespace accepted by `JSON.parse` between tokens. -/
def jsonWs (c : Char) : Bool :=
  c = ' ' || c = '\t' || c = '\n' || c = '\r'

/-- Value of a hexadecimal digit, if it is one. -/
def hexDigitVal (c : Char) : Option Nat :=
  if '0' ≤ c ∧ c ≤ '9' then some (c.toNat - Char.toNat '0')
  else if 'a' ≤ c ∧ c ≤ 'f' then some (c.toNat - Char.toNat 'a' + 10)
  else if 'A' ≤ c ∧ c ≤ 'F' then some (c.toNat - Char.toNat 'A' + 10)
  else none

/-- Short escapes recognised inside JSON string literals. -/
def jsonEscape (c : Char) : Option Char :=
  if c = '"' then some '"'
  else if c = '\\' then some '\\'
  else if c = '/' then some '/'
  else if c = 'b' then some '\u0008'
  else if c = 'f' then some '\u000C'
  else if c = 'n' then some '\n'
  else if c = 'r' then some '\r'
  else if c = 't' then some '\t'
  else none

/-- Parse a JSON number at the head of the input, keeping its lexeme.
Grammar: optional minus, integer part without leading zeros, optional
fraction, optional exponent. -/
def parseNumberAt (cs : List Char) : Option (Json × List Char) :=
  let signAndRest : List Char × List Char :=
    match cs with
    | '-' :: rest => (['-'], rest)
    | _ => ([], cs)
  let signPart := signAndRest.1
  let cs1 := signAndRest.2
  let intPart := cs1.takeWhile Char.isDigit
  if intPart = [] then none
  else if intPart.length > 1 && intPart.headD ' ' = '0' then none
  else
    let cs2 := cs1.drop intPart.length
    let fracAndRest : List Char × List Char :=
      match cs2 with
      | '.' :: rest =>
        let ds := rest.takeWhile Char.isDigit
        ('.' :: ds, rest.drop ds.length)
      | _ => ([], cs2)
    let fracPart := fracAndRest.1
    let cs3 := fracAndRest.2
    if fracPart = ['.'] then none
    else
      let expAndRest : List Char × List Char :=
        match cs3 with
        | e :: rest =>
          if e = 'e' || e = 'E' then
            let sgnAndRest : List Char × List Char :=
              match rest with
              | s :: r2 => if s = '+' || s = '-' then ([s], r2) else ([], rest)
              | [] => ([], rest)
            let ds := sgnAndRest.2.takeWhile Char.isDigit
            (e :: (sgnAndRest.1 ++ ds), sgnAndRest.2.drop ds.length)
          else ([], cs3)
        | [] => ([], cs3)
      let expPart := expAndRest.1
      if expPart ≠ [] && !(expPart.reverse.headD ' ').isDigit then none
      else
        some (Json.num (String.mk (signPart ++ intPart ++ fracPart ++ expPart)), expAndRest.2)

mutual

/-- Parse one JSON value after skipping leading whitespace, returning the
value and the unconsumed input. The fuel argument only bounds recursion
depth; `jsonParse` supplies enough for any input. -/
def parseValue : Nat → List Char → Option (Json × List Char)
  | 0, _ => none
  | fuel + 1, cs =>
    match cs.dropWhile jsonWs with
    | 'n' :: 'u' :: 'l' :: 'l' :: rest => some (Json.null, rest)
    | 't' :: 'r' :: 'u' :: 'e' :: rest => some (Json.bool true, rest)
    | 'f' :: 'a' :: 'l' :: 's' :: 'e' :: rest => some (Json.bool false, rest)
    | '"' :: rest =>
      match parseStringBody fuel rest [] with
      | some (s, rest2) => some (Json.str s, rest2)
      | none => none
    | '[' :: rest => parseArrayRest fuel rest
    | '\x7b' :: rest => parseObjectRest fuel rest
    | cs2 => parseNumberAt cs2

/-- Parse the body of a string literal after the opening quote.
A `\u` escape naming a surrogate half is approximated by the replacement
behaviour of `Char.ofNat` (Lean strings cannot hold lone surrogates);
no claim involves such input. -/
def parseStringBody : Nat → List Char → List Char → Option (String × List Char)
  | 0, _, _ => none
  | _, [], _ => none
  | fuel + 1, c :: rest, acc =>
    if c = '"' then some (String.mk acc.reverse, rest)
    else if c = '\\' then
      match rest with
      | [] => none
      | e :: rest2 =>
        if e = 'u' then
          match rest2 with
          | h1 :: h2 :: h3 :: h4 :: rest3 =>
            match hexDigitVal h1, hexDigitVal h2, hexDigitVal h3, hexDigitVal h4 with
            | some a, some b, some c3, some d =>
              parseStringBody fuel rest3 (Char.ofNat (((a * 16 + b) * 16 + c3) * 16 + d) :: acc)
            | _, _, _, _ => none
          | _ => none
        else
          match jsonEscape e with
          | some c2 => parseStringBody fuel rest2 (c2 :: acc)
          | none => none
    else if c.toNat < 0x20 then none
    else parseStringBody fuel rest (c :: acc)

/-- Parse the remainder of an array after the opening bracket. -/
def parseArrayRest : Nat → List Char → Option (Json × List Char)
  | 0, _ => none
  | fuel + 1, cs =>
    match cs.dropWhile jsonWs with
    | ']' :: rest => some (Json.arr [], rest)
    | _ => parseArrayItems fuel cs []

/-- Parse one or more comma-separated array elements and the closing bracket. -/
def parseArrayItems : Nat → List Char → List Json → Option (Json × List Char)
  | 0, _, _ => none
  | fuel + 1, cs, acc =>
    match parseValue fuel cs with
    | none => none
    | some (v, rest) =>
      match rest.dropWhile jsonWs with
      | ',' :: rest2 => parseArrayItems fuel rest2 (v :: acc)
      | ']' :: rest2 => some (Json.arr (v :: acc).reverse, rest2)
      | _ => none

/-- Parse the remainder of an object after the opening brace. -/
def parseObjectRest : Nat → List Char → Option (Json × List Char)
  | 0, _ => none
  | fuel + 1, cs =>
    match cs.dropWhile jsonWs with
    | '\x7d' :: rest => some (Json.obj [], rest)
    | _ => parseObjectItems fuel cs []

/-- Parse one or more comma-separated object members and the closing brace.
Duplicate keys are all kept here; property lookup (`jsGet`) takes the last
occurrence, matching `JSON.parse` overwrite semantics. -/
def parseObjectItems : Nat → List Char → List (String × Json) → Option (Json × List Char)
  | 0, _, _ => none
  | fuel + 1, cs, acc =>
    match cs.dropWhile jsonWs with
    | '"' :: rest =>
      match parseStringBody fuel rest [] with
      | none => none
      | some (k, rest2) =>
        match rest2.dropWhile jsonWs with
        | ':' :: rest3 =>
          match parseValue fuel rest3 with
          | none => none
          | some (v, rest4) =>
            match rest4.dropWhile jsonWs with
            | ',' :: rest5 => parseObjectItems fuel rest5 ((k, v) :: acc)
            | '\x7d' :: rest5 => some (Json.obj ((k, v) :: acc).reverse, rest5)
            | _ => none
        | _ => none
    | _ => none

end

/-- Embedding of `Response.json()` body parsing: parse a complete JSON text,
rejecting trailing garbage. The fuel `4 * length + 8` dominates the parser
recursion depth, which advances past at least one input character for every
few calls. -/
def jsonParse (s : String) : Option Json :=
  match parseValue (4 * s.length + 8) s.toList with
  | some (v, rest) => if rest.dropWhile jsonWs = [] then some v else none
  | none => none

/-- JavaScript property access `v[key]` on a parsed JSON value: `none` models
`undefined`. On objects the last duplicate key wins, as in `JSON.parse`;
any non-object value has no such own property. -/
def jsGet : Json → String → Option Json
  | Json.obj fields, key => (fields.reverse.find? (fun p => p.1 = key)).map Prod.snd
  | _, _ => none

mutual

/-- JavaScript `ToString` on a parsed JSON value, as applied when the value is
assigned to `innerText`. Numbers print as their lexeme (an approximation:
no claim involves numeric output). -/
def jsToString : Json → String
  | Json.null => "null"
  | Json.bool true => "true"
  | Json.bool false => "false"
  | Json.num lexeme => lexeme
  | Json.str s => s
  | Json.arr xs => jsArrayJoin xs
  | Json.obj _ => "[object Object]"

/-- Array.prototype.toString: elements joined by commas, null rendered empty. -/
def jsArrayJoin : List Json → String
  | [] => ""
  | [Json.null] => ""
  | [x] => jsToString x
  | Json.null :: xs => "," ++ jsArrayJoin xs
  | x :: xs => jsToString x ++ "," ++ jsArrayJoin xs

end

/-- Text stored by the assignment `element.innerText = v`.
`undefined` stringifies to "undefined"; `null` becomes the empty string by
the `[LegacyNullToEmptyString]` extended attribute on `innerText`. -/
def innerTextOfJsValue : Option Json → String
  | none => "undefined"
  | some Json.null => ""
  | some v => jsToString v

/-- The outbound HTTP request handed to `fetch`. -/
structure Request where
  method : String
  url : String
  headers : List (String × String)
  body : String
deriving Repr, DecidableEq

/-- The DOM state the handler reads and writes: the text input `question`
(its `value`), the output container `response` (its `innerText`), the
loading indicator `loader` (its `classList`), and the console error sink. -/
structure DOMState where
  questionValue : String
  responseText : String
  loaderClasses : List String
  consoleErrors : List String
deriving Repr, DecidableEq

/-- DOMTokenList.remove: drop the token wherever it occurs. -/
def classListRemove (l : List String) (c : String) : List String :=
  l.filter (fun x => x ≠ c)

/-- DOMTokenList.add: append the token unless already present. -/
def classListAdd (l : List String) (c : String) : List String :=
  if c ∈ l then l else l ++ [c]

/-- The fixed validation message written on empty input (app.js line 8). -/
def validationMessage : String := " Please enter a question."

/-- The fixed error message written by the catch handler (app.js line 29). -/
def connectionErrorMessage : String := " Error connecting to server."

/-- Rejection reason produced when `response.json()` fails to parse the body. -/
def jsonSyntaxErrorMessage : String := "SyntaxError: unexpected token in JSON"

/-- The single request built by `askQuestion` (app.js lines 15-21):
POST to /ask with a JSON content type and the stringified
object containing the one shorthand property `question`. -/
def askRequest (q : String) : Request :=
  { method := "POST"
    url := "/ask"
    headers := [("Content-Type", "application/json")]
    body := jsonStringify (Json.obj [("question", Json.str q)]) }

/-- DOM state right after app.js lines 12-13: output cleared and the
`hidden` class removed from the loader. -/
def pendingState (st : DOMState) : DOMState :=
  { st with responseText := ""
            loaderClasses := classListRemove st.loaderClasses "hidden" }

/-- The synchronous prefix of `askQuestion`, from entry up to the suspension
point at `fetch`: trim and validate the input, and on the non-empty path
prepare the UI and issue the request (`none` means no request was issued). -/
def askQuestionSync (st : DOMState) : DOMState × Option Request :=
  let question := jsTrim st.questionValue
  if question = "" then
    ({ st with responseText := validationMessage }, none)
  else
    (pendingState st, some (askRequest question))

/-- Fulfilled continuation, app.js lines 23-26: hide the loader and render
`data.response` into the output container. -/
def onFulfilled (st : DOMState) (data : Json) : DOMState :=
  { st with loaderClasses := classListAdd st.loaderClasses "hidden"
            responseText := innerTextOfJsValue (jsGet data "response") }

/-- Rejected continuation, app.js lines 27-31: hide the loader, show the
fixed error message, and log the failure to the console. -/
def onRejected (st : DOMState) (err : String) : DOMState :=
  { st with loaderClasses := classListAdd st.loaderClasses "hidden"
            responseText := connectionErrorMessage
            consoleErrors := st.consoleErrors ++ [err] }

/-- Result of the `fetch` promise: rejection with a reason, or an HTTP
response carrying a status and a raw body. -/
inductive FetchResult where
  | failure : String → FetchResult
  | response : Nat → String → FetchResult
deriving Repr, DecidableEq

/-- Resolution of the promise chain
`fetch(...).then(r => r.json()).then(data => ...).catch(err => ...)` once
the fetch result is known. The HTTP status is never inspected: a resolved
response runs the success continuation exactly when its body parses as
JSON, and both a network failure and a body-parse failure reach the catch
handler. -/
def settle (st1 : DOMState) (r : FetchResult) : DOMState :=
  match r with
  | FetchResult.failure err => onRejected st1 err
  | FetchResult.response _status body =>
    match jsonParse body with
    | none => onRejected st1 jsonSyntaxErrorMessage
    | some data => onFulfilled st1 data

/-- One complete run of `askQuestion` against a network oracle `net`,
returned as the final DOM state together with the list of requests issued. -/
def askQuestion (st : DOMState) (net : Request → FetchResult) : DOMState × List Request :=
  match askQuestionSync st with
  | (st1, none) => (st1, [])
  | (st1, some req) => (settle st1 (net req), [req])

/-- Output text produced by the settled chain: it depends only on the fetch
result, not on the DOM state at resolution time. -/
def settleText (r : FetchResult) : String :=
  match r with
  | FetchResult.failure _ => connectionErrorMessage
  | FetchResult.response _status body =>
    match jsonParse body with
    | none => connectionErrorMessage
    | some data => innerTextOfJsValue (jsGet data "response")

/-! Basic facts about the embedding, shared by the claim theorems below. -/

theorem askQuestionSync_empty (st : DOMState) (h : jsTrim st.questionValue = "") :
    askQuestionSync st = ({ st with responseText := validationMessage }, none) := by
  simp [askQuestionSync, h]

theorem askQuestionSync_nonempty (st : DOMState) (h : jsTrim st.questionValue ≠ "") :
    askQuestionSync st = (pendingState st, some (askRequest (jsTrim st.questionValue))) := by
  simp [askQuestionSync, h]

theorem askQuestion_empty_eq (st : DOMState) (net : Request → FetchResult)
    (h : jsTrim st.questionValue = "") :
    askQuestion st net = ({ st with responseText := validationMessage }, []) := by
  unfold askQuestion
  rw [askQuestionSync_empty st h]

theorem askQuestion_nonempty_eq (st : DOMState) (net : Request → FetchResult)
    (h : jsTrim st.questionValue ≠ "") :
    askQuestion st net =
      (settle (pendingState st) (net (askRequest (jsTrim st.questionValue))),
        [askRequest (jsTrim st.questionValue)]) := by
  unfold askQuestion
  rw [askQuestionSync_nonempty st h]

theorem mem_classListAdd_self (l : List String) (c : String) : c ∈ classListAdd l c := by
  unfold classListAdd
  split
  · assumption
  · simp

theorem not_mem_classListRemove_self (l : List String) (c : String) :
    c ∉ classListRemove l c := by
  simp [classListRemove]

theorem settle_failure (st1 : DOMState) (err : String) :
    settle st1 (FetchResult.failure err) = onRejected st1 err := rfl

theorem settle_response (st1 : DOMState) (status : Nat) (body : String) :
    settle st1 (FetchResult.response status body) =
      match jsonParse body with
      | none => onRejected st1 jsonSyntaxErrorMessage
      | some data => onFulfilled st1 data := rfl

theorem settleText_response (status : Nat) (body : String) :
    settleText (FetchResult.response status body) =
      match jsonParse body with
      | none => connectionErrorMessage
      | some data => innerTextOfJsValue (jsGet data "response") := rfl

theorem settle_loader (st1 : DOMState) (r : FetchResult) :
    "hidden" ∈ (settle st1 r).loaderClasses := by
  cases r with
  | failure err => exact mem_classListAdd_self _ _
  | response status body =>
    rw [settle_response]
    cases jsonParse body with
    | none => exact mem_classListAdd_self _ _
    | some data => exact mem_classListAdd_self _ _

theorem settle_responseText (st1 : DOMState) (r : FetchResult) :
    (settle st1 r).responseText = settleText r := by
  cases r with
  | failure err => rfl
  | response status body =>
    rw [settle_response, settleText_response]
    cases jsonParse body with
    | none => rfl
    | some data => rfl

theorem settle_questionValue (st1 : DOMState) (r : FetchResult) :
    (settle st1 r).questionValue = st1.questionValue := by
  cases r with
  | failure err => rfl
  | response status body =>
    rw [settle_response]
    cases jsonParse body with
    | none => rfl
    | some data => rfl

theorem askQuestion_questionValue (st : DOMState) (net : Request → FetchResult) :
    (askQuestion st net).1.questionValue = st.questionValue := by
  by_cases h : jsTrim st.questionValue = ""
  · rw [askQuestion_empty_eq st net h]
  · rw [askQuestion_nonempty_eq st net h]
    exact settle_questionValue _ _

/-! The claim theorems. -/

/-- C1: for every input that is empty or only whitespace after trimming,
`askQuestion` issues no network request, sets the output area's text to the
fixed validation message, and returns immediately, leaving every other part
of the state unchanged. -/
theorem askQuestion_blank_input_no_request (st : DOMState) (net : Request → FetchResult)
    (h : jsTrim st.questionValue = "") :
    askQuestion st net = ({ st with responseText := validationMessage }, []) :=
  askQuestion_empty_eq st net h

/-- Witness for C1 at the concrete all-whitespace input. -/
theorem askQuestion_blank_input_no_request_witness :
    askQuestion ⟨"  \t ", "old", ["hidden"], []⟩ (fun _ => FetchResult.failure "down")
      = (⟨"  \t ", validationMessage, ["hidden"], []⟩, []) :=
  askQuestion_blank_input_no_request ⟨"  \t ", "old", ["hidden"], []⟩
    (fun _ => FetchResult.failure "down") (by decide)

/-- C2: for every input whose trimmed value is non-empty, exactly one request
is issued: method POST, header Content-Type: application/json, path /ask, and
body the JSON encoding of the one-field object with `question` bound to the
trimmed input. -/
theorem askQuestion_single_post_request (st : DOMState) (net : Request → FetchResult)
    (h : jsTrim st.questionValue ≠ "") :
    (askQuestion st net).2 =
      [{ method := "POST"
         url := "/ask"
         headers := [("Content-Type", "application/json")]
         body := jsonStringify (Json.obj [("question", Json.str (jsTrim st.questionValue))]) }] := by
  rw [askQuestion_nonempty_eq st net h]
  rfl

/-- Witness for C2: the input " hi " yields one POST to /ask with the exact
body text. -/
theorem askQuestion_single_post_request_witness :
    (askQuestion ⟨" hi ", "", [], []⟩ (fun _ => FetchResult.failure "down")).2 =
      [{ method := "POST"
         url := "/ask"
         headers := [("Content-Type", "application/json")]
         body := "\x7b\"question\":\"hi\"\x7d" }] :=
  (askQuestion_single_post_request ⟨" hi ", "", [], []⟩
    (fun _ => FetchResult.failure "down") (by decide)).trans rfl

/-- C6: for every input whose trimmed value is non-empty, at the moment the
request is issued (the synchronous prefix, before any continuation runs) the
output area has been cleared to the empty string and the loading indicator
revealed by removing its `hidden` class. -/
theorem askQuestion_clears_output_and_reveals_loader (st : DOMState)
    (h : jsTrim st.questionValue ≠ "") :
    askQuestionSync st = (pendingState st, some (askRequest (jsTrim st.questionValue))) ∧
    (pendingState st).responseText = "" ∧
    "hidden" ∉ (pendingState st).loaderClasses :=
  ⟨askQuestionSync_nonempty st h, rfl, not_mem_classListRemove_self _ _⟩

/-- Witness for C6 at a concrete padded input with the loader hidden. -/
theorem askQuestion_clears_output_and_reveals_loader_witness :
    askQuestionSync ⟨" q ", "prev", ["hidden"], []⟩ =
      (pendingState ⟨" q ", "prev", ["hidden"], []⟩,
        some (askRequest (jsTrim " q "))) ∧
    (pendingState (⟨" q ", "prev", ["hidden"], []⟩ : DOMState)).responseText = "" ∧
    "hidden" ∉ (pendingState (⟨" q ", "prev", ["hidden"], []⟩ : DOMState)).loaderClasses :=
  askQuestion_clears_output_and_reveals_loader ⟨" q ", "prev", ["hidden"], []⟩ (by decide)

/-- C9: on every execution path, `askQuestion` never writes the text input:
its value is unchanged both at the suspension point and in the final state. -/
theorem askQuestion_never_writes_input (st : DOMState) (net : Request → FetchResult) :
    (askQuestionSync st).1.questionValue = st.questionValue ∧
    (askQuestion st net).1.questionValue = st.questionValue := by
  constructor
  · by_cases h : jsTrim st.questionValue = ""
    · rw [askQuestionSync_empty st h]
    · rw [askQuestionSync_nonempty st h]
      rfl
  · exact askQuestion_questionValue st net

/-- C10: on the validation path the loader's class list is left entirely
unchanged, so a loader left visible by an earlier still-pending request stays
exactly as it was. -/
theorem askQuestion_validation_loader_unchanged (st : DOMState) (net : Request → FetchResult)
    (h : jsTrim st.questionValue = "") :
    (askQuestion st net).1.loaderClasses = st.loaderClasses := by
  rw [askQuestion_empty_eq st net h]

/-- Witness for C10: with the loader visible (no `hidden` class) and a blank
input, the class list stays empty. -/
theorem askQuestion_validation_loader_unchanged_witness :
    (askQuestion ⟨"   ", "x", [], ["old"]⟩ (fun _ => FetchResult.failure "down")).1.loaderClasses
      = [] :=
  askQuestion_validation_loader_unchanged ⟨"   ", "x", [], ["old"]⟩
    (fun _ => FetchResult.failure "down") (by decide)

/-- C3: for every successful response whose body parses as a JSON object, the
handler hides the loading indicator and sets the output text to the rendering
of the object's `response` field. -/
theorem askQuestion_success_renders_response_field (st : DOMState)
    (net : Request → FetchResult) (status : Nat) (body : String)
    (fields : List (String × Json))
    (h : jsTrim st.questionValue ≠ "")
    (hnet : net (askRequest (jsTrim st.questionValue)) = FetchResult.response status body)
    (hbody : jsonParse body = some (Json.obj fields)) :
    "hidden" ∈ (askQuestion st net).1.loaderClasses ∧
    (askQuestion st net).1.responseText =
      innerTextOfJsValue (jsGet (Json.obj fields) "response") := by
  rw [askQuestion_nonempty_eq st net h, hnet]
  refine ⟨settle_loader _ _, ?_⟩
  have hst := settle_responseText (pendingState st) (FetchResult.response status body)
  rw [settleText_response, hbody] at hst
  exact hst

/-- Witness for C3: the concrete response body containing the JSON text with
field `response` bound to "42" renders exactly "42", loader hidden. -/
theorem askQuestion_success_renders_response_field_witness :
    "hidden" ∈ (askQuestion ⟨"hi", "", ["hidden"], []⟩
        (fun _ => FetchResult.response 200 "\x7b\"response\": \"42\"\x7d")).1.loaderClasses ∧
    (askQuestion ⟨"hi", "", ["hidden"], []⟩
        (fun _ => FetchResult.response 200 "\x7b\"response\": \"42\"\x7d")).1.responseText
      = "42" := by
  have h := askQuestion_success_renders_response_field ⟨"hi", "", ["hidden"], []⟩
    (fun _ => FetchResult.response 200 "\x7b\"response\": \"42\"\x7d") 200
    "\x7b\"response\": \"42\"\x7d" [("response", Json.str "42")]
    (by decide) rfl (by rfl)
  exact ⟨h.1, h.2.trans rfl⟩

/-- C4: on a network failure, or on a response whose body fails JSON parsing,
the handler hides the loading indicator, shows the fixed error message, and
appends the failure detail to the console (the diagnostic channel), which the
output area never receives. -/
theorem askQuestion_failure_fixed_error (st : DOMState) (net : Request → FetchResult)
    (err : String) (status : Nat) (body : String)
    (h : jsTrim st.questionValue ≠ "")
    (hfail : net (askRequest (jsTrim st.questionValue)) = FetchResult.failure err ∨
      (net (askRequest (jsTrim st.questionValue)) = FetchResult.response status body ∧
        jsonParse body = none)) :
    "hidden" ∈ (askQuestion st net).1.loaderClasses ∧
    (askQuestion st net).1.responseText = connectionErrorMessage ∧
    ∃ detail, (askQuestion st net).1.consoleErrors = st.consoleErrors ++ [detail] := by
  rw [askQuestion_nonempty_eq st net h]
  rcases hfail with hn | ⟨hn, hb⟩
  · rw [hn, settle_failure]
    exact ⟨mem_classListAdd_self _ _, rfl, err, rfl⟩
  · rw [hn, settle_response, hb]
    exact ⟨mem_classListAdd_self _ _, rfl, jsonSyntaxErrorMessage, rfl⟩

/-- Witness for C4 at a concrete refused connection. -/
theorem askQuestion_failure_fixed_error_witness :
    "hidden" ∈ (askQuestion ⟨"hi", "", ["hidden"], []⟩
        (fun _ => FetchResult.failure "ECONNREFUSED")).1.loaderClasses ∧
    (askQuestion ⟨"hi", "", ["hidden"], []⟩
        (fun _ => FetchResult.failure "ECONNREFUSED")).1.responseText
      = connectionErrorMessage ∧
    ∃ detail, (askQuestion ⟨"hi", "", ["hidden"], []⟩
        (fun _ => FetchResult.failure "ECONNREFUSED")).1.consoleErrors = [] ++ [detail] :=
  askQuestion_failure_fixed_error ⟨"hi", "", ["hidden"], []⟩
    (fun _ => FetchResult.failure "ECONNREFUSED") "ECONNREFUSED" 0 ""
    (by decide) (Or.inl rfl)

/-- C5 counterexample: a non-2xx (500) response whose body is valid JSON is
processed by the success continuation, not the failure path: the output shows
the body's `response` field instead of the fixed error message. -/
theorem nonSuccessStatus_json_body_counterexample :
    (askQuestion ⟨"hi", "", ["hidden"], []⟩
        (fun _ => FetchResult.response 500 "\x7b\"response\":\"oops\"\x7d")).1.responseText
      = "oops" ∧
    (askQuestion ⟨"hi", "", ["hidden"], []⟩
        (fun _ => FetchResult.response 500 "\x7b\"response\":\"oops\"\x7d")).1.responseText
      ≠ connectionErrorMessage :=
  ⟨rfl, by decide⟩

/-- C5 (amended): the handler ignores the HTTP status entirely: a response is
processed identically under any two statuses with the same body; and the two
failure kinds it does have, network failure and non-JSON body, lead to the
same outcome, the fixed error message with the loader hidden. -/
theorem askQuestion_status_blind_failures_uniform (st : DOMState)
    (s s' : Nat) (b b' e : String)
    (h : jsTrim st.questionValue ≠ "") (hb : jsonParse b = none) :
    askQuestion st (fun _ => FetchResult.response s b') =
      askQuestion st (fun _ => FetchResult.response s' b') ∧
    (askQuestion st (fun _ => FetchResult.failure e)).1.responseText
      = connectionErrorMessage ∧
    (askQuestion st (fun _ => FetchResult.response s b)).1.responseText
      = connectionErrorMessage ∧
    "hidden" ∈ (askQuestion st (fun _ => FetchResult.failure e)).1.loaderClasses ∧
    "hidden" ∈ (askQuestion st (fun _ => FetchResult.response s b)).1.loaderClasses := by
  refine ⟨?_, ?_, ?_, ?_, ?_⟩
  · rw [askQuestion_nonempty_eq st (fun _ => FetchResult.response s b') h,
      askQuestion_nonempty_eq st (fun _ => FetchResult.response s' b') h,
      settle_response, settle_response]
  · rw [askQuestion_nonempty_eq st (fun _ => FetchResult.failure e) h, settle_failure]
    rfl
  · rw [askQuestion_nonempty_eq st (fun _ => FetchResult.response s b) h,
      settle_response, hb]
    rfl
  · rw [askQuestion_nonempty_eq st (fun _ => FetchResult.failure e) h]
    exact settle_loader _ _
  · rw [askQuestion_nonempty_eq st (fun _ => FetchResult.response s b) h]
    exact settle_loader _ _

/-- Witness for the amended C5 at concrete statuses 500 and 200, a non-JSON
body, a JSON body, and a network failure. -/
theorem askQuestion_status_blind_failures_uniform_witness :
    askQuestion ⟨"hi", "", [], []⟩
        (fun _ => FetchResult.response 500 "\x7b\"response\":\"ok\"\x7d") =
      askQuestion ⟨"hi", "", [], []⟩
        (fun _ => FetchResult.response 200 "\x7b\"response\":\"ok\"\x7d") ∧
    (askQuestion ⟨"hi", "", [], []⟩
        (fun _ => FetchResult.failure "down")).1.responseText = connectionErrorMessage ∧
    (askQuestion ⟨"hi", "", [], []⟩
        (fun _ => FetchResult.response 500 "nope")).1.responseText
      = connectionErrorMessage ∧
    "hidden" ∈ (askQuestion ⟨"hi", "", [], []⟩
        (fun _ => FetchResult.failure "down")).1.loaderClasses ∧
    "hidden" ∈ (askQuestion ⟨"hi", "", [], []⟩
        (fun _ => FetchResult.response 500 "nope")).1.loaderClasses :=
  askQuestion_status_blind_failures_uniform ⟨"hi", "", [], []⟩
    500 200 "nope" "\x7b\"response\":\"ok\"\x7d" "down" (by decide) rfl

/-- C7: submitting the same valid question twice sequentially, the second run
started from the first run's final state against the same server behaviour,
writes the same output text both times. -/
theorem askQuestion_sequential_same_output (st : DOMState) (net : Request → FetchResult)
    (h : jsTrim st.questionValue ≠ "") :
    (askQuestion (askQuestion st net).1 net).1.responseText =
      (askQuestion st net).1.responseText := by
  have hv : (askQuestion st net).1.questionValue = st.questionValue :=
    askQuestion_questionValue st net
  have h2 : jsTrim (askQuestion st net).1.questionValue ≠ "" := by
    rw [hv]; exact h
  calc (askQuestion (askQuestion st net).1 net).1.responseText
      = settleText (net (askRequest (jsTrim (askQuestion st net).1.questionValue))) := by
        rw [askQuestion_nonempty_eq _ net h2]
        exact settle_responseText _ _
    _ = settleText (net (askRequest (jsTrim st.questionValue))) := by rw [hv]
    _ = (askQuestion st net).1.responseText := by
        rw [askQuestion_nonempty_eq st net h]
        exact (settle_responseText _ _).symm

/-- Witness for C7: two sequential runs of the question "hi" against a server
answering with the same successful body give the same output. -/
theorem askQuestion_sequential_same_output_witness :
    (askQuestion (askQuestion ⟨"hi", "", [], []⟩
        (fun _ => FetchResult.response 200 "\x7b\"response\": \"42\"\x7d")).1
        (fun _ => FetchResult.response 200 "\x7b\"response\": \"42\"\x7d")).1.responseText =
      (askQuestion ⟨"hi", "", [], []⟩
        (fun _ => FetchResult.response 200 "\x7b\"response\": \"42\"\x7d")).1.responseText :=
  askQuestion_sequential_same_output ⟨"hi", "", [], []⟩
    (fun _ => FetchResult.response 200 "\x7b\"response\": \"42\"\x7d") (by decide)

/-- C8: once a non-empty submission reaches the suspension point the loader is
visible (no `hidden` class), and only the success and failure continuations
add the `hidden` class back: with no timeout in the model, nothing else can
hide it while the request is unsettled. -/
theorem loader_persists_until_continuation (st : DOMState)
    (h : jsTrim st.questionValue ≠ "") :
    "hidden" ∉ (askQuestionSync st).1.loaderClasses ∧
    (∀ mid data, "hidden" ∈ (onFulfilled mid data).loaderClasses) ∧
    (∀ mid err, "hidden" ∈ (onRejected mid err).loaderClasses) := by
  refine ⟨?_, ?_, ?_⟩
  · rw [askQuestionSync_nonempty st h]
    exact not_mem_classListRemove_self _ _
  · intro mid data
    exact mem_classListAdd_self _ _
  · intro mid err
    exact mem_classListAdd_self _ _

/-- Witness for C8 at a concrete pending submission. -/
theorem loader_persists_until_continuation_witness :
    "hidden" ∉ (askQuestionSync ⟨"hi", "x", ["hidden"], []⟩).1.loaderClasses ∧
    (∀ mid data, "hidden" ∈ (onFulfilled mid data).loaderClasses) ∧
    (∀ mid err, "hidden" ∈ (onRejected mid err).loaderClasses) :=
  loader_persists_until_continuation ⟨"hi", "x", ["hidden"], []⟩ (by decide)
